import Mathlib

/-!
Shallow embedding of the core of `src/app.py` (The Greed Trial server):
the rigged-outcome generator (`generate_pattern`, `get_next_outcome`),
the trivia cache (`get_trivia_question`, the refill merge step of
`prefetch_trivia`), the external fetcher (`fetch_trivia_from_api`) and
the leaderboard cache (`refresh_leaderboard`), together with theorems
settling the frozen claims about them.

Randomness is embedded as an explicit oracle (`Rand`): a stream of
rationals in `[0,1)` standing for the values of `random.random()`, and a
stream of naturals feeding `random.randint` / index draws of
`random.shuffle` and `random.sample`.  Properties are proved for every
oracle, i.e. for every outcome of the random choices.
-/

namespace RageBait

/-- Oracle for the Python `random` module: `floats` are successive values
of `random.random()` (rationals in `[0,1)`), `ints` feed the integer
draws (`random.randint`, shuffle/sample index picks). -/
structure Rand where
  floats : List ℚ
  ints : List ℕ

/-- One call of `random.random()`: consume the head of the float stream. -/
def nextFloat (r : Rand) : ℚ × Rand :=
  (r.floats.headD 0, ⟨r.floats.tail, r.ints⟩)

/-- One uniform integer draw in `[lo, hi]` (`random.randint(lo, hi)` or an
index pick of shuffle): the head of the int stream reduced into range. -/
def nextInt (lo hi : ℕ) (r : Rand) : ℕ × Rand :=
  (lo + r.ints.headD 0 % (hi - lo + 1), ⟨r.floats, r.ints.tail⟩)

variable {α : Type*}

/-- The Python parallel assignment `l[i], l[j] = l[j], l[i]`: both old
values are read first, then written.  Out-of-range indices make it a
no-op (they never occur at the call sites). -/
def listSwap (l : List α) (i j : ℕ) : List α :=
  match l[i]?, l[j]? with
  | some a, some b => (l.set i b).set j a
  | _, _ => l

theorem set_getElem?_self (l : List α) (i : ℕ) (a : α) (h : l[i]? = some a) :
    l.set i a = l := by
  induction l generalizing i with
  | nil => simp at h
  | cons x t ih =>
    cases i with
    | zero => simp_all
    | succ k =>
      simp only [List.getElem?_cons_succ] at h
      simp [ih k h]

theorem set_swap_perm_of_lt (l : List α) {i j : ℕ} {a b : α} (hji : j < i)
    (hia : l[i]? = some a) (hjb : l[j]? = some b) :
    ((l.set i b).set j a).Perm l := by
  obtain ⟨hi, ha⟩ := List.getElem?_eq_some_iff.mp hia
  obtain ⟨hj, hb⟩ := List.getElem?_eq_some_iff.mp hjb
  set D := l.drop (j + 1) with hD
  set k := i - (j + 1) with hk
  have hkD : k < D.length := by
    simp only [hD, List.length_drop]
    omega
  have hDk : D[k] = a := by
    rw [← ha]
    simp only [hD]
    rw [List.getElem_drop]
    congr 1
    omega
  have e1 : (l.set i b).set j a
      = l.take j ++ a :: (D.set k b) := by
    rw [List.set_eq_take_cons_drop a (by simpa using hj)]
    congr 1
    · rw [List.set_take, List.set_eq_of_length_le]
      simp only [List.length_take]
      omega
    · congr 1
      rw [List.drop_set, if_neg (by omega)]
  have e2 : l = l.take j ++ b :: D := by
    conv_lhs => rw [← List.take_append_drop j l]
    rw [List.drop_eq_getElem_cons hj, hb]
  have e3 : D.set k b = D.take k ++ b :: D.drop (k + 1) :=
    List.set_eq_take_cons_drop b hkD
  have e4 : D = D.take k ++ a :: D.drop (k + 1) := by
    conv_lhs => rw [← List.take_append_drop k D]
    rw [List.drop_eq_getElem_cons hkD, hDk]
  rw [e1, e3]
  conv_rhs => rw [e2, e4]
  refine List.Perm.append_left _ ?_
  exact (List.Perm.cons a List.perm_middle).trans
    ((List.Perm.swap b a _).trans (List.Perm.cons b List.perm_middle.symm))

/-- Swapping two positions of a list always yields a permutation of it. -/
theorem listSwap_perm (l : List α) (i j : ℕ) : (listSwap l i j).Perm l := by
  rcases h1 : l[i]? with _ | a
  · simp [listSwap, h1]
  · rcases h2 : l[j]? with _ | b
    · simp [listSwap, h1, h2]
    · have hd : listSwap l i j = (l.set i b).set j a := by
        simp [listSwap, h1, h2]
      rw [hd]
      rcases Nat.lt_trichotomy i j with hij | hij | hij
      · rw [List.set_comm _ _ _ (Nat.ne_of_lt hij)]
        exact set_swap_perm_of_lt l hij h2 h1
      · subst hij
        rw [h1] at h2
        cases h2
        rw [List.set_set, set_getElem?_self l i a h1]
      · exact set_swap_perm_of_lt l hij h1 h2

/-! ### RandomPatternEngine: `generate_pattern` (src/app.py lines 23-43) -/

/-- The four canonical bias templates of `generate_pattern`. -/
def pattern_easy : List ℤ := [1, 1, 1, 1, 0, 1, 1, 1, 0, 1, 1, 1, 1, 0, 1]

def pattern_medium : List ℤ := [1, 1, 1, 0, 1, 1, 0, 1, 1, 1, 0, 1, 0, 1, 1]

def pattern_hard : List ℤ := [1, 1, 0, 1, 1, 0, 1, 0, 1, 1, 0, 0, 1, 1, 0]

def pattern_brutal : List ℤ := [1, 0, 1, 1, 0, 0, 1, 0, 1, 0, 1, 1, 0, 1, 0]

/-- The if/elif chain of `generate_pattern` selecting a template from the
difficulty level. -/
def patternTemplate (level : ℤ) : List ℤ :=
  if level ≤ 4 then pattern_easy
  else if level ≤ 10 then pattern_medium
  else if level ≤ 16 then pattern_hard
  else pattern_brutal

/-- The perturbation loop `for i in range(len(pat)-1, 0, -1)`: at index
`i` (counting down to 1), with probability 0.2 swap `pat[i]` with
`pat[max(0, i - randint(1,3))]` (natural subtraction clamps at 0). -/
def perturbLoop : List ℤ → ℕ → Rand → List ℤ × Rand
  | pat, 0, r => (pat, r)
  | pat, i + 1, r =>
    let fr := nextFloat r
    if fr.1 < 1/5 then
      let dr := nextInt 1 3 fr.2
      perturbLoop (listSwap pat (i + 1) (i + 1 - dr.1)) i dr.2
    else
      perturbLoop pat i fr.2

/-- `generate_pattern(level)` from src/app.py: pick the template by
thresholds on `level`, then perturb a fresh copy in place. -/
def generate_pattern (level : ℤ) (r : Rand) : List ℤ × Rand :=
  let pat := patternTemplate level
  perturbLoop pat (pat.length - 1) r

theorem perturbLoop_perm (i : ℕ) (pat : List ℤ) (r : Rand) :
    (perturbLoop pat i r).1.Perm pat := by
  induction i generalizing pat r with
  | zero => exact List.Perm.refl pat
  | succ k ih =>
    simp only [perturbLoop]
    split
    · exact (ih _ _).trans (listSwap_perm _ _ _)
    · exact ih _ _

theorem generate_pattern_perm (level : ℤ) (r : Rand) :
    (generate_pattern level r).1.Perm (patternTemplate level) :=
  perturbLoop_perm _ _ _

/-! ### `random.shuffle` / `random.sample` as used by the trivia cache.

`random.shuffle` is the Fisher-Yates loop
`for i in reversed(range(1, len(x))): j = randbelow(i+1); swap`.
`random.sample(pool, k)` (a uniform draw of `k` distinct positions,
without replacement) is modelled as the first `k` elements of a
Fisher-Yates shuffle of the pool, which draws distinct positions. -/

def shuffleLoop : List α → ℕ → Rand → List α × Rand
  | l, 0, r => (l, r)
  | l, i + 1, r =>
    let jr := nextInt 0 (i + 1) r
    shuffleLoop (listSwap l (i + 1) jr.1) i jr.2

def listShuffle (l : List α) (r : Rand) : List α × Rand :=
  shuffleLoop l (l.length - 1) r

def listSample (l : List α) (count : ℕ) (r : Rand) : List α × Rand :=
  let sr := listShuffle l r
  (sr.1.take count, sr.2)

theorem shuffleLoop_perm (i : ℕ) (l : List α) (r : Rand) :
    (shuffleLoop l i r).1.Perm l := by
  induction i generalizing l r with
  | zero => exact List.Perm.refl l
  | succ k ih => exact (ih _ _).trans (listSwap_perm _ _ _)

theorem listShuffle_perm (l : List α) (r : Rand) :
    (listShuffle l r).1.Perm l :=
  shuffleLoop_perm _ _ _

/-! ### ActiveGameRegistry and `get_next_outcome` (src/app.py lines 45-62) -/

/-- Per-token game state (the dict stored in `active_games`): `level`,
`money`, `streak` are written by the caller; `pattern` is absent until
first generated (`"pattern" not in state`), hence an `Option`. -/
structure GameState where
  level : ℤ
  money : ℤ
  streak : ℤ
  pattern : Option (List ℤ)
  pattern_pos : ℕ

/-- `active_games`: mapping from session token to game state. -/
def GameMap := String → Option GameState

/-- The refresh step of `get_next_outcome`: if the state has no pattern
yet or the cursor is past the end, generate a fresh perturbed pattern
and reset the cursor to 0; otherwise keep pattern and cursor. -/
def refreshPattern (st : GameState) (r : Rand) : List ℤ × ℕ × Rand :=
  match st.pattern with
  | none =>
    let pr := generate_pattern st.level r
    (pr.1, 0, pr.2)
  | some p =>
    if st.pattern_pos ≥ p.length then
      let pr := generate_pattern st.level r
      (pr.1, 0, pr.2)
    else
      (p, st.pattern_pos, r)

/-- The two corrective overrides of `get_next_outcome`, applied in order
to the value `result` read from the pattern.  A float is drawn only when
the guard of the corresponding `if` holds (Python short-circuit `and`). -/
def applyOverrides (result : ℤ) (money streak : ℤ) (r : Rand) : ℤ × Rand :=
  if result = 1 ∧ money > 500000 then
    let fr := nextFloat r
    (if fr.1 < 15/100 then 0 else result, fr.2)
  else if result = 0 ∧ streak ≥ 5 then
    let fr := nextFloat r
    (if fr.1 < 1/10 then 1 else result, fr.2)
  else
    (result, r)

/-- `get_next_outcome(token)` from src/app.py: returns the outcome, the
updated `active_games` map, and the advanced random oracle. -/
def get_next_outcome (games : GameMap) (token : String) (r : Rand) :
    ℤ × GameMap × Rand :=
  match games token with
  | none => (0, games, r)
  | some st =>
    let pr := refreshPattern st r
    let result := pr.1.getD pr.2.1 0
    let st' : GameState :=
      { st with pattern := some pr.1, pattern_pos := pr.2.1 + 1 }
    let games' : GameMap := fun t => if t = token then some st' else games t
    let out := applyOverrides result st.money st.streak pr.2.2
    (out.1, games', out.2)

/-! ### TriviaCache: question data and fallback banks (src/app.py lines 259-341) -/

/-- A trivia question as stored in the cache: the dict
`{question, correct_answer, incorrect_answers, category}`; the hard-coded
fallback entries carry no `category` key, hence an `Option`. -/
structure Question where
  question : String
  correct_answer : String
  incorrect_answers : List String
  category : Option String
deriving DecidableEq

def FALLBACK_EASY : List Question := [
  ⟨"What planet is known as the Red Planet?", "Mars", ["Venus", "Jupiter", "Saturn"], none⟩,
  ⟨"How many continents are there on Earth?", "7", ["5", "6", "8"], none⟩,
  ⟨"What is the largest ocean on Earth?", "Pacific Ocean", ["Atlantic Ocean", "Indian Ocean", "Arctic Ocean"], none⟩,
  ⟨"What gas do plants absorb from the atmosphere?", "Carbon Dioxide", ["Oxygen", "Nitrogen", "Helium"], none⟩,
  ⟨"Which animal is known as the King of the Jungle?", "Lion", ["Tiger", "Elephant", "Bear"], none⟩,
  ⟨"What is the chemical symbol for water?", "H2O", ["CO2", "O2", "NaCl"], none⟩,
  ⟨"How many legs does a spider have?", "8", ["6", "10", "12"], none⟩,
  ⟨"What color are emeralds?", "Green", ["Blue", "Red", "Yellow"], none⟩,
  ⟨"Which country is home to the kangaroo?", "Australia", ["New Zealand", "South Africa", "Brazil"], none⟩,
  ⟨"What is the hardest natural substance on Earth?", "Diamond", ["Gold", "Iron", "Platinum"], none⟩,
  ⟨"How many colors are in a rainbow?", "7", ["5", "6", "8"], none⟩,
  ⟨"What is the largest mammal in the world?", "Blue Whale", ["Elephant", "Giraffe", "Hippopotamus"], none⟩,
  ⟨"Which planet is closest to the Sun?", "Mercury", ["Venus", "Earth", "Mars"], none⟩,
  ⟨"What is the boiling point of water in Celsius?", "100", ["90", "110", "120"], none⟩,
  ⟨"How many days are in a leap year?", "366", ["365", "367", "364"], none⟩,
  ⟨"What is the smallest prime number?", "2", ["1", "3", "0"], none⟩,
  ⟨"Which organ pumps blood through the body?", "Heart", ["Lungs", "Brain", "Liver"], none⟩,
  ⟨"What fruit is known for keeping doctors away?", "Apple", ["Banana", "Orange", "Grape"], none⟩,
  ⟨"How many sides does a triangle have?", "3", ["4", "5", "6"], none⟩,
  ⟨"What is the freezing point of water in Celsius?", "0", ["-10", "10", "32"], none⟩,
  ⟨"What is the capital of France?", "Paris", ["London", "Berlin", "Madrid"], none⟩,
  ⟨"Which season comes after winter?", "Spring", ["Summer", "Autumn", "Winter"], none⟩,
  ⟨"How many months have 31 days?", "7", ["5", "6", "8"], none⟩,
  ⟨"What color is a ruby?", "Red", ["Blue", "Green", "Purple"], none⟩,
  ⟨"What do bees produce?", "Honey", ["Milk", "Silk", "Wax"], none⟩,
  ⟨"Which is the longest river in the world?", "Nile", ["Amazon", "Mississippi", "Yangtze"], none⟩,
  ⟨"How many weeks are in a year?", "52", ["48", "50", "54"], none⟩,
  ⟨"What is the opposite of \x27hot\x27?", "Cold", ["Warm", "Cool", "Freezing"], none⟩,
  ⟨"Which shape has 4 equal sides?", "Square", ["Rectangle", "Triangle", "Circle"], none⟩,
  ⟨"What is 12 x 12?", "144", ["124", "132", "156"], none⟩,
  ⟨"What animal says \x27moo\x27?", "Cow", ["Sheep", "Pig", "Horse"], none⟩,
  ⟨"How many hours are in a day?", "24", ["12", "20", "36"], none⟩,
  ⟨"What is the capital of Japan?", "Tokyo", ["Kyoto", "Osaka", "Seoul"], none⟩,
  ⟨"Which element has the chemical symbol \x27O\x27?", "Oxygen", ["Gold", "Osmium", "Oganesson"], none⟩,
  ⟨"What is the largest desert in the world?", "Sahara", ["Gobi", "Kalahari", "Antarctic"], none⟩,
  ⟨"How many zeros are in one million?", "6", ["5", "7", "8"], none⟩,
  ⟨"What primary color is made by mixing red and blue?", "Purple", ["Green", "Orange", "Brown"], none⟩,
  ⟨"Which planet has rings around it?", "Saturn", ["Mars", "Venus", "Mercury"], none⟩,
  ⟨"What is the main ingredient in bread?", "Flour", ["Sugar", "Salt", "Butter"], none⟩,
  ⟨"How many strings does a standard guitar have?", "6", ["4", "5", "8"], none⟩
]

def FALLBACK_MEDIUM : List Question := [
  ⟨"What year did the Titanic sink?", "1912", ["1905", "1915", "1920"], none⟩,
  ⟨"Which element has the atomic number 79?", "Gold", ["Silver", "Platinum", "Copper"], none⟩,
  ⟨"What is the speed of light in km/s (approximately)?", "300,000", ["150,000", "500,000", "1,000,000"], none⟩,
  ⟨"Who painted the Mona Lisa?", "Leonardo da Vinci", ["Michelangelo", "Raphael", "Donatello"], none⟩,
  ⟨"What is the powerhouse of the cell?", "Mitochondria", ["Nucleus", "Ribosome", "Golgi Body"], none⟩,
  ⟨"Which country has the most people?", "India", ["China", "USA", "Indonesia"], none⟩,
  ⟨"What is the square root of 169?", "13", ["11", "12", "14"], none⟩,
  ⟨"In what year did World War II end?", "1945", ["1944", "1946", "1943"], none⟩,
  ⟨"What is the currency of Japan?", "Yen", ["Won", "Yuan", "Rupee"], none⟩,
  ⟨"Which blood type is the universal donor?", "O negative", ["A positive", "AB positive", "B negative"], none⟩,
  ⟨"How many bones are in the adult human body?", "206", ["196", "216", "186"], none⟩,
  ⟨"What is the chemical formula for table salt?", "NaCl", ["KCl", "CaCl2", "NaOH"], none⟩,
  ⟨"Which planet is known as the Morning Star?", "Venus", ["Mars", "Mercury", "Jupiter"], none⟩,
  ⟨"What does DNA stand for?", "Deoxyribonucleic Acid", ["Dinitrogen Acid", "Dynamic Nuclear Acid", "Dual Nucleic Acid"], none⟩,
  ⟨"Who wrote \x27Romeo and Juliet\x27?", "William Shakespeare", ["Charles Dickens", "Jane Austen", "Mark Twain"], none⟩,
  ⟨"What is the smallest country in the world?", "Vatican City", ["Monaco", "San Marino", "Liechtenstein"], none⟩,
  ⟨"How many chromosomes do humans have?", "46", ["44", "48", "42"], none⟩,
  ⟨"What is the tallest mountain in the world?", "Mount Everest", ["K2", "Kangchenjunga", "Makalu"], none⟩,
  ⟨"Which gas makes up about 78% of Earth\x27s atmosphere?", "Nitrogen", ["Oxygen", "Carbon Dioxide", "Argon"], none⟩,
  ⟨"What year was the first iPhone released?", "2007", ["2005", "2008", "2006"], none⟩
]

def FALLBACK_HARD : List Question := [
  ⟨"What is the half-life of Carbon-14 (in years)?", "5,730", ["3,200", "8,400", "11,460"], none⟩,
  ⟨"In what year was the Treaty of Westphalia signed?", "1648", ["1588", "1712", "1555"], none⟩,
  ⟨"What is the Planck constant (in J\xb7s)?", "6.626 x 10^-34", ["3.14 x 10^-34", "9.81 x 10^-34", "1.38 x 10^-23"], none⟩,
  ⟨"Which mathematician proved Fermat\x27s Last Theorem?", "Andrew Wiles", ["Pierre de Fermat", "Leonhard Euler", "Carl Gauss"], none⟩,
  ⟨"What is the deepest point in the ocean?", "Mariana Trench", ["Tonga Trench", "Java Trench", "Puerto Rico Trench"], none⟩,
  ⟨"What element has the highest melting point?", "Tungsten", ["Iron", "Titanium", "Carbon"], none⟩,
  ⟨"Who developed the theory of General Relativity?", "Albert Einstein", ["Isaac Newton", "Niels Bohr", "Max Planck"], none⟩,
  ⟨"What is the capital of Mongolia?", "Ulaanbaatar", ["Astana", "Bishkek", "Tashkent"], none⟩,
  ⟨"In computing, what does RAID stand for?", "Redundant Array of Independent Disks", ["Random Access Internal Drive", "Rapid Array of Integrated Data", "Recoverable Archive of Internal Disks"], none⟩,
  ⟨"What is the longest bone in the human body?", "Femur", ["Tibia", "Humerus", "Fibula"], none⟩,
  ⟨"Which artist cut off part of his own ear?", "Vincent van Gogh", ["Pablo Picasso", "Claude Monet", "Salvador Dali"], none⟩,
  ⟨"What is the most abundant element in the universe?", "Hydrogen", ["Helium", "Oxygen", "Carbon"], none⟩,
  ⟨"In what year did the Berlin Wall fall?", "1989", ["1987", "1991", "1985"], none⟩,
  ⟨"What is the only mammal capable of true flight?", "Bat", ["Flying Squirrel", "Sugar Glider", "Colugo"], none⟩,
  ⟨"What language has the most native speakers?", "Mandarin Chinese", ["English", "Spanish", "Hindi"], none⟩
]

/-- The trivia cache: a mapping from difficulty key to question pool
(the dict `trivia_cache`; `get_trivia_question` may add keys). -/
def TriviaCache := String → Option (List Question)

/-- `fallback.get(difficulty, FALLBACK_EASY)` on the dict
`{"easy": FALLBACK_EASY, "medium": FALLBACK_MEDIUM, "hard": FALLBACK_HARD}`. -/
def fallbackBank (difficulty : String) : List Question :=
  if difficulty = "easy" then FALLBACK_EASY
  else if difficulty = "medium" then FALLBACK_MEDIUM
  else if difficulty = "hard" then FALLBACK_HARD
  else FALLBACK_EASY

/-- The formatted view `get_trivia_question` returns to the client:
answers (3 distractors + the correct one) shuffled per call. -/
structure QuestionView where
  question : String
  answers : List String
  correct : String
  category : String
deriving DecidableEq

/-- Format the selected questions for the client: for each question,
shuffle `incorrect_answers + [correct_answer]` and build the view dict. -/
def formatQuestions : List Question → Rand → List QuestionView × Rand
  | [], r => ([], r)
  | q :: qs, r =>
    let ansR := listShuffle (q.incorrect_answers ++ [q.correct_answer]) r
    let rest := formatQuestions qs ansR.2
    (⟨q.question, ansR.1, q.correct_answer, q.category.getD "General"⟩ :: rest.1, rest.2)

/-- The pool `get_trivia_question` samples from: the tier's cached pool,
or (emergency fallback) the tier's fallback bank when the cached pool is
missing or empty. -/
def effectivePool (cache : TriviaCache) (difficulty : String) : List Question :=
  if (cache difficulty).getD [] = [] then fallbackBank difficulty
  else (cache difficulty).getD []

/-- The selection step of `get_trivia_question`: shuffle the whole pool
when `count >= len(pool)`, otherwise `random.sample(pool, count)`. -/
def selectQuestions (pool : List Question) (count : ℕ) (r : Rand) :
    List Question × Rand :=
  if count ≥ pool.length then listShuffle pool r
  else listSample pool count r

/-- `get_trivia_question(difficulty, count)` (src/app.py lines 486-513):
returns the formatted batch, the updated cache (an empty or missing pool
is reseeded from the fallback bank before sampling), and the oracle. -/
def get_trivia_question (cache : TriviaCache) (difficulty : String) (count : ℕ)
    (r : Rand) : List QuestionView × TriviaCache × Rand :=
  let pool := effectivePool cache difficulty
  let cache' : TriviaCache :=
    if (cache difficulty).getD [] = [] then
      fun d => if d = difficulty then some pool else cache d
    else cache
  let sel := selectQuestions pool count r
  let res := formatQuestions sel.1 sel.2
  (res.1, cache', res.2)

/-! ### The refill merge step of `prefetch_trivia` (src/app.py lines 444-459) -/

/-- One tier's merge step of `prefetch_trivia`, as a function of the
tier's current pool, the fetch result `questions`, and the tier's
fallback bank: on a non-empty fetch result, fetched questions whose text
already occurs in the pool are discarded and the rest appended in order;
on an empty result (any fetch failure), fallback questions with new text
are appended when the pool is smaller than the bank, else no change. -/
def prefetchMerge (pool fetched bank : List Question) : List Question :=
  if fetched ≠ [] then
    pool ++ fetched.filter (fun q => q.question ∉ pool.map Question.question)
  else
    if pool.length < bank.length then
      pool ++ bank.filter (fun q => q.question ∉ pool.map Question.question)
    else pool

/-! ### ExternalFetcher: `fetch_trivia_from_api` (src/app.py lines 378-420) -/

/-- Outcome of one OpenTDB request as seen by `fetch_trivia_from_api`:
a parsed JSON payload with its `response_code` and decoded questions
(`response_code == 0` success, `5` source-signaled rate limit, other
codes failure), a body that fails to parse, an `HTTPError` (non-success
HTTP status), or a transport error (`URLError` and the like). -/
inductive ApiResponse where
  | payload (response_code : ℤ) (results : List Question)
  | malformed
  | httpError
  | transportError
deriving DecidableEq

/-- `fetch_trivia_from_api` given the response, the clock value `now`
(the `time.time()` taken once the request completes) and the previous
shared `last_fetch_time`: returns the fetched questions (empty on any
failure) and the new shared `last_fetch_time`.  Inside the response
block the code first sets `last_fetch_time = now`, so a malformed body
or a non-success `response_code` leaves it at `now`; the rate-limit code
5 and the `HTTPError` handler set it to `now + 10`; a transport error
leaves the old value. -/
def fetch_trivia_from_api (resp : ApiResponse) (now lastFetch : ℚ) :
    List Question × ℚ :=
  match resp with
  | .payload rc results =>
    if rc = 0 then (results, now)
    else if rc = 5 then ([], now + 10)
    else ([], now)
  | .malformed => ([], now)
  | .httpError => ([], now + 10)
  | .transportError => ([], lastFetch)

/-! ### LeaderboardCache (src/app.py lines 235-242 and 776-784) -/

/-- A leaderboard entry as written by `update_score`. -/
structure LBEntry where
  username : String
  emoji : String
  score : ℤ
  crashes : ℤ
  total_games : ℤ
  total_wins : ℤ
  best_streak : ℤ
  time : ℚ
deriving DecidableEq

/-- `refresh_leaderboard`: read the stored leaderboard, sort it by score
descending (Python's stable sort on the key `-score`) and keep the first
50 entries as the cached snapshot. -/
def refresh_leaderboard (stored : List LBEntry) : List LBEntry :=
  (stored.mergeSort (fun a b => b.score ≤ a.score)).take 50

/-- The `/api/leaderboard` read path of `GreedHandler.do_GET`: the first
20 entries of the cached snapshot, falling back to a direct read of the
durable store when the snapshot is empty. -/
def leaderboard_top (cached stored : List LBEntry) : List LBEntry :=
  let lb := cached.take 20
  if lb = [] then stored.take 20 else lb

/-! ### Claim theorems: RandomPatternEngine -/

theorem patternTemplate_length (level : ℤ) : (patternTemplate level).length = 15 := by
  unfold patternTemplate
  split
  · rfl
  split
  · rfl
  split
  · rfl
  · rfl

/-- C10: for every difficulty level and every outcome of the random
choices, the perturbed sequence produced by `generate_pattern` is a
permutation of the selected 15-element template: it has length 15 and
exactly the same multiset of entries (hence the same number of 1s and
0s), so the win count is preserved exactly. -/
theorem generate_pattern_permutes_template (level : ℤ) (r : Rand) :
    (generate_pattern level r).1.Perm (patternTemplate level)
    ∧ (generate_pattern level r).1.length = 15
    ∧ ∀ z : ℤ, (generate_pattern level r).1.count z = (patternTemplate level).count z := by
  have hp := generate_pattern_perm level r
  exact ⟨hp, hp.length_eq.trans (patternTemplate_length level),
    fun z => hp.count_eq z⟩

/-- C4: a missing token returns outcome 0 and the active-game map and
oracle are returned unchanged — no state is created, no failure. -/
theorem get_next_outcome_missing_token (games : GameMap) (token : String)
    (r : Rand) (h : games token = none) :
    get_next_outcome games token r = (0, games, r) := by
  unfold get_next_outcome
  rw [h]

theorem get_next_outcome_missing_token_witness :
    get_next_outcome (fun _ => none) "t" ⟨[], []⟩ = (0, fun _ => none, ⟨[], []⟩) :=
  get_next_outcome_missing_token (fun _ => none) "t" ⟨[], []⟩ rfl

/-- C5: for an existing token, `get_next_outcome` never writes `money`,
`streak` or `level`; only the pattern and the cursor of that token may
change, and no other token is touched. -/
theorem get_next_outcome_preserves_money_streak
    (games : GameMap) (token : String) (r : Rand) (st : GameState)
    (hst : games token = some st) :
    ∃ pat pos,
      (get_next_outcome games token r).2.1 token
        = some { level := st.level, money := st.money, streak := st.streak,
                 pattern := some pat, pattern_pos := pos }
      ∧ ∀ t, t ≠ token → (get_next_outcome games token r).2.1 t = games t := by
  unfold get_next_outcome
  rw [hst]
  refine ⟨(refreshPattern st r).1, (refreshPattern st r).2.1 + 1, ?_, ?_⟩
  · simp
  · intro t ht
    simp [ht]

theorem get_next_outcome_preserves_money_streak_witness :
    ∃ pat pos,
      (get_next_outcome
          (fun t => if t = "t" then some ⟨3, 100, 2, some [1, 0], 0⟩ else none)
          "t" ⟨[], []⟩).2.1 "t"
        = some { level := (3 : ℤ), money := 100, streak := 2,
                 pattern := some pat, pattern_pos := pos }
      ∧ ∀ t, t ≠ "t" →
          (get_next_outcome
              (fun t => if t = "t" then some ⟨3, 100, 2, some [1, 0], 0⟩ else none)
              "t" ⟨[], []⟩).2.1 t
            = (fun t => if t = "t" then some (⟨3, 100, 2, some [1, 0], 0⟩ : GameState) else none) t :=
  get_next_outcome_preserves_money_streak
    (fun t => if t = "t" then some ⟨3, 100, 2, some [1, 0], 0⟩ else none)
    "t" ⟨[], []⟩ ⟨3, 100, 2, some [1, 0], 0⟩ rfl

/-- C3: the pattern generator picks exactly one of the four canonical
15-element templates by thresholds on the level (easy for level <= 4,
medium for level <= 10, hard for level <= 16, brutal otherwise), and
`get_next_outcome` consumes the sequence left-to-right via a cursor:
with the cursor in range the element at the cursor is read and the
cursor advances by one; when the pattern is absent or the cursor reaches
or passes the end, a new perturbed sequence is generated and the cursor
restarts from 0 (the stored cursor becomes 1 after reading element 0). -/
theorem get_next_outcome_template_and_cursor
    (games : GameMap) (token : String) (r : Rand) (st : GameState)
    (hst : games token = some st) :
    ((∀ level : ℤ, level ≤ 4 → patternTemplate level = pattern_easy)
      ∧ (∀ level : ℤ, 4 < level → level ≤ 10 → patternTemplate level = pattern_medium)
      ∧ (∀ level : ℤ, 10 < level → level ≤ 16 → patternTemplate level = pattern_hard)
      ∧ (∀ level : ℤ, 16 < level → patternTemplate level = pattern_brutal))
    ∧ (pattern_easy.length = 15 ∧ pattern_medium.length = 15
        ∧ pattern_hard.length = 15 ∧ pattern_brutal.length = 15)
    ∧ (st.pattern = none ∨ st.pattern_pos ≥ (st.pattern.getD []).length →
        refreshPattern st r
          = ((generate_pattern st.level r).1, 0, (generate_pattern st.level r).2))
    ∧ (∀ p, st.pattern = some p → st.pattern_pos < p.length →
        refreshPattern st r = (p, st.pattern_pos, r))
    ∧ ((get_next_outcome games token r).2.1 token
        = some { st with pattern := some (refreshPattern st r).1,
                         pattern_pos := (refreshPattern st r).2.1 + 1 })
    ∧ ((get_next_outcome games token r).1
        = (applyOverrides ((refreshPattern st r).1.getD (refreshPattern st r).2.1 0)
            st.money st.streak (refreshPattern st r).2.2).1) := by
  refine ⟨⟨?_, ?_, ?_, ?_⟩, ⟨rfl, rfl, rfl, rfl⟩, ?_, ?_, ?_, ?_⟩
  · intro level h
    unfold patternTemplate
    rw [if_pos h]
  · intro level h1 h2
    unfold patternTemplate
    rw [if_neg (by omega), if_pos h2]
  · intro level h1 h2
    unfold patternTemplate
    rw [if_neg (by omega), if_neg (by omega), if_pos h2]
  · intro level h
    unfold patternTemplate
    rw [if_neg (by omega), if_neg (by omega), if_neg (by omega)]
  · intro hex
    unfold refreshPattern
    rcases hex with hnone | hpast
    · rw [hnone]
    · cases hp : st.pattern with
      | none => rfl
      | some p =>
        rw [hp] at hpast
        simp only [Option.getD_some] at hpast
        simp [hpast]
  · intro p hp hlt
    unfold refreshPattern
    rw [hp]
    simp [Nat.not_le.mpr hlt, ge_iff_le]
  · unfold get_next_outcome
    rw [hst]
    simp
  · unfold get_next_outcome
    rw [hst]

theorem get_next_outcome_template_and_cursor_witness :
    ((∀ level : ℤ, level ≤ 4 → patternTemplate level = pattern_easy)
      ∧ (∀ level : ℤ, 4 < level → level ≤ 10 → patternTemplate level = pattern_medium)
      ∧ (∀ level : ℤ, 10 < level → level ≤ 16 → patternTemplate level = pattern_hard)
      ∧ (∀ level : ℤ, 16 < level → patternTemplate level = pattern_brutal))
    ∧ (pattern_easy.length = 15 ∧ pattern_medium.length = 15
        ∧ pattern_hard.length = 15 ∧ pattern_brutal.length = 15)
    ∧ ((⟨2, 0, 0, some [1, 0], 2⟩ : GameState).pattern = none
        ∨ (⟨2, 0, 0, some [1, 0], 2⟩ : GameState).pattern_pos
            ≥ (((⟨2, 0, 0, some [1, 0], 2⟩ : GameState).pattern).getD []).length →
        refreshPattern ⟨2, 0, 0, some [1, 0], 2⟩ ⟨[], []⟩
          = ((generate_pattern 2 ⟨[], []⟩).1, 0, (generate_pattern 2 ⟨[], []⟩).2))
    ∧ (∀ p, (⟨2, 0, 0, some [1, 0], 2⟩ : GameState).pattern = some p
        → (⟨2, 0, 0, some [1, 0], 2⟩ : GameState).pattern_pos < p.length →
        refreshPattern ⟨2, 0, 0, some [1, 0], 2⟩ ⟨[], []⟩
          = (p, (⟨2, 0, 0, some [1, 0], 2⟩ : GameState).pattern_pos, ⟨[], []⟩))
    ∧ ((get_next_outcome
          (fun t => if t = "t" then some ⟨2, 0, 0, some [1, 0], 2⟩ else none)
          "t" ⟨[], []⟩).2.1 "t"
        = some { (⟨2, 0, 0, some [1, 0], 2⟩ : GameState) with
                   pattern := some (refreshPattern ⟨2, 0, 0, some [1, 0], 2⟩ ⟨[], []⟩).1,
                   pattern_pos := (refreshPattern ⟨2, 0, 0, some [1, 0], 2⟩ ⟨[], []⟩).2.1 + 1 })
    ∧ ((get_next_outcome
          (fun t => if t = "t" then some ⟨2, 0, 0, some [1, 0], 2⟩ else none)
          "t" ⟨[], []⟩).1
        = (applyOverrides
            ((refreshPattern ⟨2, 0, 0, some [1, 0], 2⟩ ⟨[], []⟩).1.getD
              (refreshPattern ⟨2, 0, 0, some [1, 0], 2⟩ ⟨[], []⟩).2.1 0)
            0 0 (refreshPattern ⟨2, 0, 0, some [1, 0], 2⟩ ⟨[], []⟩).2.2).1) :=
  get_next_outcome_template_and_cursor
    (fun t => if t = "t" then some ⟨2, 0, 0, some [1, 0], 2⟩ else none)
    "t" ⟨[], []⟩ ⟨2, 0, 0, some [1, 0], 2⟩ rfl

/-- C2: for an existing token, the returned outcome is exactly the value
of the corrective-override step applied to the template value read at
the cursor; the override step returns 0 instead of a read 1 when the
money exceeds 500000 and the draw falls under 0.15, returns 1 instead of
a read 0 when the streak is at least 5 and the draw falls under 0.10,
and under no other condition differs from the value read. -/
theorem get_next_outcome_override_rules
    (games : GameMap) (token : String) (r : Rand) (st : GameState)
    (result money streak : ℤ) (r0 : Rand)
    (hst : games token = some st) :
    ((get_next_outcome games token r).1
      = (applyOverrides ((refreshPattern st r).1.getD (refreshPattern st r).2.1 0)
          st.money st.streak (refreshPattern st r).2.2).1)
    ∧ (result = 1 → money > 500000 → (nextFloat r0).1 < 15/100 →
        (applyOverrides result money streak r0).1 = 0)
    ∧ (result = 0 → streak ≥ 5 → (nextFloat r0).1 < 1/10 →
        (applyOverrides result money streak r0).1 = 1)
    ∧ ((applyOverrides result money streak r0).1 ≠ result →
        (result = 1 ∧ money > 500000 ∧ (nextFloat r0).1 < 15/100)
        ∨ (result = 0 ∧ streak ≥ 5 ∧ (nextFloat r0).1 < 1/10)) := by
  refine ⟨?_, ?_, ?_, ?_⟩
  · unfold get_next_outcome
    rw [hst]
  · intro h1 h2 h3
    unfold applyOverrides
    rw [if_pos ⟨h1, h2⟩]
    show (if (nextFloat r0).1 < 15/100 then (0 : ℤ) else result) = 0
    rw [if_pos h3]
  · intro h1 h2 h3
    unfold applyOverrides
    rw [if_neg (by omega), if_pos ⟨h1, h2⟩]
    show (if (nextFloat r0).1 < 1/10 then (1 : ℤ) else result) = 1
    rw [if_pos h3]
  · intro hne
    unfold applyOverrides at hne
    by_cases hA : result = 1 ∧ money > 500000
    · rw [if_pos hA] at hne
      have hne2 : (if (nextFloat r0).1 < 15/100 then (0 : ℤ) else result) ≠ result := hne
      by_cases hf : (nextFloat r0).1 < 15/100
      · exact Or.inl ⟨hA.1, hA.2, hf⟩
      · rw [if_neg hf] at hne2
        exact absurd rfl hne2
    · rw [if_neg hA] at hne
      by_cases hB : result = 0 ∧ streak ≥ 5
      · rw [if_pos hB] at hne
        have hne2 : (if (nextFloat r0).1 < 1/10 then (1 : ℤ) else result) ≠ result := hne
        by_cases hf : (nextFloat r0).1 < 1/10
        · exact Or.inr ⟨hB.1, hB.2, hf⟩
        · rw [if_neg hf] at hne2
          exact absurd rfl hne2
      · rw [if_neg hB] at hne
        exact absurd rfl hne

theorem get_next_outcome_override_rules_witness :
    ((get_next_outcome
        (fun t => if t = "t" then some ⟨1, 600000, 0, some [1, 1], 0⟩ else none)
        "t" ⟨[1/10], []⟩).1
      = (applyOverrides
          ((refreshPattern ⟨1, 600000, 0, some [1, 1], 0⟩ ⟨[1/10], []⟩).1.getD
            (refreshPattern ⟨1, 600000, 0, some [1, 1], 0⟩ ⟨[1/10], []⟩).2.1 0)
          600000 0 (refreshPattern ⟨1, 600000, 0, some [1, 1], 0⟩ ⟨[1/10], []⟩).2.2).1)
    ∧ ((1 : ℤ) = 1 → (600000 : ℤ) > 500000 → (nextFloat ⟨[1/10], []⟩).1 < 15/100 →
        (applyOverrides 1 600000 0 ⟨[1/10], []⟩).1 = 0)
    ∧ ((1 : ℤ) = 0 → (0 : ℤ) ≥ 5 → (nextFloat ⟨[1/10], []⟩).1 < 1/10 →
        (applyOverrides 1 600000 0 ⟨[1/10], []⟩).1 = 1)
    ∧ ((applyOverrides 1 600000 0 ⟨[1/10], []⟩).1 ≠ 1 →
        ((1 : ℤ) = 1 ∧ (600000 : ℤ) > 500000 ∧ (nextFloat ⟨[1/10], []⟩).1 < 15/100)
        ∨ ((1 : ℤ) = 0 ∧ (0 : ℤ) ≥ 5 ∧ (nextFloat ⟨[1/10], []⟩).1 < 1/10)) :=
  get_next_outcome_override_rules
    (fun t => if t = "t" then some ⟨1, 600000, 0, some [1, 1], 0⟩ else none)
    "t" ⟨[1/10], []⟩ ⟨1, 600000, 0, some [1, 1], 0⟩ 1 600000 0 ⟨[1/10], []⟩ rfl

/-! ### Claim theorems: TriviaCache sampling -/

theorem formatQuestions_map (qs : List Question) (r : Rand) :
    (formatQuestions qs r).1.map QuestionView.question
      = qs.map Question.question := by
  induction qs generalizing r with
  | nil => rfl
  | cons q tl ih => simp [formatQuestions, ih]

theorem get_trivia_question_fst (cache : TriviaCache) (difficulty : String)
    (count : ℕ) (r : Rand) :
    (get_trivia_question cache difficulty count r).1
      = (formatQuestions
          (selectQuestions (effectivePool cache difficulty) count r).1
          (selectQuestions (effectivePool cache difficulty) count r).2).1 := rfl

theorem get_trivia_question_snd_cache (cache : TriviaCache) (difficulty : String)
    (count : ℕ) (r : Rand) :
    (get_trivia_question cache difficulty count r).2.1
      = if (cache difficulty).getD [] = [] then
          (fun d => if d = difficulty then some (effectivePool cache difficulty)
            else cache d)
        else cache := rfl

theorem selectQuestions_texts (pool : List Question) (count : ℕ) (r : Rand) :
    ((selectQuestions pool count r).1.map Question.question).Subperm
        (pool.map Question.question)
    ∧ (selectQuestions pool count r).1.length = min count pool.length
    ∧ (count ≥ pool.length →
        ((selectQuestions pool count r).1.map Question.question).Perm
          (pool.map Question.question)) := by
  have hp : ((listShuffle pool r).1.map Question.question).Perm
      (pool.map Question.question) := (listShuffle_perm pool r).map _
  unfold selectQuestions
  by_cases h : count ≥ pool.length
  · rw [if_pos h]
    refine ⟨hp.subperm, ?_, fun _ => hp⟩
    rw [(listShuffle_perm pool r).length_eq]
    omega
  · rw [if_neg h]
    simp only [listSample]
    refine ⟨?_, ?_, fun hc => absurd hc h⟩
    · have hsub : (((listShuffle pool r).1.take count).map Question.question).Sublist
          ((listShuffle pool r).1.map Question.question) := by
        rw [List.map_take]
        exact List.take_sublist _ _
      exact hsub.subperm.trans hp.subperm
    · rw [List.length_take, (listShuffle_perm pool r).length_eq]

theorem selectQuestions_nodup (pool : List Question) (count : ℕ) (r : Rand)
    (h : (pool.map Question.question).Nodup) :
    ((selectQuestions pool count r).1.map Question.question).Nodup := by
  have hp : ((listShuffle pool r).1.map Question.question).Perm
      (pool.map Question.question) := (listShuffle_perm pool r).map _
  have hS : ((listShuffle pool r).1.map Question.question).Nodup := h.perm hp.symm
  unfold selectQuestions
  by_cases hc : count ≥ pool.length
  · rw [if_pos hc]
    exact hS
  · rw [if_neg hc]
    simp only [listSample]
    rw [List.map_take]
    exact (List.take_sublist _ _).nodup hS

/-- C1: for a tier whose cached pool is non-empty (with pairwise-distinct
question texts, the invariant the dedup merge maintains), the returned
batch is drawn from the pool without replacement: its question texts are
a sub-permutation of the pool texts, its size is exactly
`min(count, pool_size)`, it is a full permutation of the pool whenever
`count >= pool_size`, and it never contains duplicates. -/
theorem get_trivia_question_sample_without_replacement
    (cache : TriviaCache) (difficulty : String) (pool : List Question)
    (count : ℕ) (r : Rand)
    (hpool : cache difficulty = some pool) (hne : pool ≠ [])
    (hnodup : (pool.map Question.question).Nodup) :
    ((get_trivia_question cache difficulty count r).1.map QuestionView.question).Subperm
        (pool.map Question.question)
    ∧ (get_trivia_question cache difficulty count r).1.length = min count pool.length
    ∧ (count ≥ pool.length →
        ((get_trivia_question cache difficulty count r).1.map QuestionView.question).Perm
          (pool.map Question.question))
    ∧ ((get_trivia_question cache difficulty count r).1.map QuestionView.question).Nodup := by
  have hep : effectivePool cache difficulty = pool := by
    unfold effectivePool
    rw [hpool]
    simp only [Option.getD_some]
    rw [if_neg hne]
  have hmap : (get_trivia_question cache difficulty count r).1.map QuestionView.question
      = (selectQuestions pool count r).1.map Question.question := by
    rw [get_trivia_question_fst, formatQuestions_map, hep]
  have hlen : (get_trivia_question cache difficulty count r).1.length
      = (selectQuestions pool count r).1.length := by
    have h2 := congrArg List.length hmap
    simpa using h2
  obtain ⟨hs1, hs2, hs3⟩ := selectQuestions_texts pool count r
  refine ⟨?_, ?_, ?_, ?_⟩
  · rw [hmap]
    exact hs1
  · rw [hlen]
    exact hs2
  · intro hc
    rw [hmap]
    exact hs3 hc
  · rw [hmap]
    exact selectQuestions_nodup pool count r hnodup

theorem get_trivia_question_sample_without_replacement_witness :
    ((get_trivia_question
        (fun d => if d = "easy"
          then some [⟨"A?", "a", ["b", "c", "d"], none⟩, ⟨"B?", "a", ["b", "c", "d"], none⟩]
          else none)
        "easy" 1 ⟨[], []⟩).1.map QuestionView.question).Subperm
      ([⟨"A?", "a", ["b", "c", "d"], none⟩,
        ⟨"B?", "a", ["b", "c", "d"], none⟩].map Question.question)
    ∧ (get_trivia_question
        (fun d => if d = "easy"
          then some [⟨"A?", "a", ["b", "c", "d"], none⟩, ⟨"B?", "a", ["b", "c", "d"], none⟩]
          else none)
        "easy" 1 ⟨[], []⟩).1.length
      = min 1 ([⟨"A?", "a", ["b", "c", "d"], none⟩,
          ⟨"B?", "a", ["b", "c", "d"], none⟩] : List Question).length
    ∧ (1 ≥ ([⟨"A?", "a", ["b", "c", "d"], none⟩,
          ⟨"B?", "a", ["b", "c", "d"], none⟩] : List Question).length →
        ((get_trivia_question
            (fun d => if d = "easy"
              then some [⟨"A?", "a", ["b", "c", "d"], none⟩, ⟨"B?", "a", ["b", "c", "d"], none⟩]
              else none)
            "easy" 1 ⟨[], []⟩).1.map QuestionView.question).Perm
          ([⟨"A?", "a", ["b", "c", "d"], none⟩,
            ⟨"B?", "a", ["b", "c", "d"], none⟩].map Question.question))
    ∧ ((get_trivia_question
        (fun d => if d = "easy"
          then some [⟨"A?", "a", ["b", "c", "d"], none⟩, ⟨"B?", "a", ["b", "c", "d"], none⟩]
          else none)
        "easy" 1 ⟨[], []⟩).1.map QuestionView.question).Nodup :=
  get_trivia_question_sample_without_replacement
    (fun d => if d = "easy"
      then some [⟨"A?", "a", ["b", "c", "d"], none⟩, ⟨"B?", "a", ["b", "c", "d"], none⟩]
      else none)
    "easy"
    [⟨"A?", "a", ["b", "c", "d"], none⟩, ⟨"B?", "a", ["b", "c", "d"], none⟩]
    1 ⟨[], []⟩ rfl (by decide) (by decide)

theorem fallbackBank_ne_nil (d : String) : fallbackBank d ≠ [] := by
  unfold fallbackBank
  split
  · unfold FALLBACK_EASY
    exact List.cons_ne_nil _ _
  · split
    · unfold FALLBACK_MEDIUM
      exact List.cons_ne_nil _ _
    · split
      · unfold FALLBACK_HARD
        exact List.cons_ne_nil _ _
      · unfold FALLBACK_EASY
        exact List.cons_ne_nil _ _

theorem effectivePool_ne_nil (cache : TriviaCache) (d : String) :
    effectivePool cache d ≠ [] := by
  unfold effectivePool
  by_cases h : (cache d).getD [] = []
  · rw [if_pos h]
    exact fallbackBank_ne_nil d
  · rw [if_neg h]
    exact h

/-- C9: for every difficulty argument — recognized or not — and every
count of at least 1, `get_trivia_question` returns a non-empty batch of
usable questions drawn from the effective pool (the cached pool, or the
fallback bank — `FALLBACK_EASY` for unrecognized tiers — when the cached
pool is missing or empty), and an empty cached pool is synchronously
reseeded in the cache before sampling. -/
theorem get_trivia_question_never_fails
    (cache : TriviaCache) (difficulty : String) (count : ℕ) (r : Rand)
    (hcount : 1 ≤ count) :
    effectivePool cache difficulty ≠ []
    ∧ (get_trivia_question cache difficulty count r).1 ≠ []
    ∧ (get_trivia_question cache difficulty count r).1.length
        = min count (effectivePool cache difficulty).length
    ∧ (∀ v ∈ (get_trivia_question cache difficulty count r).1,
        v.question ∈ (effectivePool cache difficulty).map Question.question)
    ∧ ((cache difficulty).getD [] = [] →
        (get_trivia_question cache difficulty count r).2.1 difficulty
          = some (effectivePool cache difficulty)) := by
  have hep := effectivePool_ne_nil cache difficulty
  have hmap : (get_trivia_question cache difficulty count r).1.map QuestionView.question
      = (selectQuestions (effectivePool cache difficulty) count r).1.map Question.question := by
    rw [get_trivia_question_fst, formatQuestions_map]
  have hlen : (get_trivia_question cache difficulty count r).1.length
      = (selectQuestions (effectivePool cache difficulty) count r).1.length := by
    have h2 := congrArg List.length hmap
    simpa using h2
  obtain ⟨hs1, hs2, hs3⟩ := selectQuestions_texts (effectivePool cache difficulty) count r
  refine ⟨hep, ?_, hlen.trans hs2, ?_, ?_⟩
  · intro hnil
    have hz : (get_trivia_question cache difficulty count r).1.length = 0 := by
      rw [hnil]
      rfl
    have hpos : 0 < (effectivePool cache difficulty).length :=
      List.length_pos.mpr hep
    rw [hlen.trans hs2] at hz
    omega
  · intro v hv
    have hm : v.question
        ∈ (get_trivia_question cache difficulty count r).1.map QuestionView.question :=
      List.mem_map_of_mem _ hv
    rw [hmap] at hm
    exact hs1.subset hm
  · intro hempty
    rw [get_trivia_question_snd_cache, if_pos hempty]
    simp

theorem get_trivia_question_never_fails_witness :
    effectivePool (fun _ => none) "bogus" ≠ []
    ∧ (get_trivia_question (fun _ => none) "bogus" 1 ⟨[], []⟩).1 ≠ []
    ∧ (get_trivia_question (fun _ => none) "bogus" 1 ⟨[], []⟩).1.length
        = min 1 (effectivePool (fun _ => none) "bogus").length
    ∧ (∀ v ∈ (get_trivia_question (fun _ => none) "bogus" 1 ⟨[], []⟩).1,
        v.question ∈ (effectivePool (fun _ => none) "bogus").map Question.question)
    ∧ (((fun _ => none : TriviaCache) "bogus").getD [] = [] →
        (get_trivia_question (fun _ => none) "bogus" 1 ⟨[], []⟩).2.1 "bogus"
          = some (effectivePool (fun _ => none) "bogus")) :=
  get_trivia_question_never_fails (fun _ => none) "bogus" 1 ⟨[], []⟩ (by decide)

/-! ### Claim theorems: ExternalFetcher -/

/-- C6 counterexample: an `HTTPError` failure — not a source-signaled
rate-limit response — also pushes the shared last-call timestamp 10
seconds past the current time (`now = 100` here), contradicting the
claim that only the rate-limit response does so. -/
theorem fetch_httpError_also_backs_off :
    fetch_trivia_from_api ApiResponse.httpError 100 0 = ([], 110) := by
  show (([], (100 : ℚ) + 10) : List Question × ℚ) = ([], 110)
  norm_num

/-- C6 (amended): every failure kind (malformed payload, non-success
response code, HTTP error, transport error) returns an empty result and
never raises; the shared last-call timestamp is pushed 10 extra seconds
past the current time on a source-signaled rate-limit response AND on an
`HTTPError`; a malformed payload or another non-success response code
leaves it at the current time, and a transport error leaves it at its
previous value. -/
theorem fetch_trivia_failure_and_backoff (qs : List Question) (rc : ℤ)
    (now lastFetch : ℚ) :
    fetch_trivia_from_api (.payload 0 qs) now lastFetch = (qs, now)
    ∧ fetch_trivia_from_api (.payload 5 qs) now lastFetch = ([], now + 10)
    ∧ (rc ≠ 0 → rc ≠ 5 →
        fetch_trivia_from_api (.payload rc qs) now lastFetch = ([], now))
    ∧ fetch_trivia_from_api .malformed now lastFetch = ([], now)
    ∧ fetch_trivia_from_api .httpError now lastFetch = ([], now + 10)
    ∧ fetch_trivia_from_api .transportError now lastFetch = ([], lastFetch) := by
  refine ⟨rfl, ?_, ?_, rfl, rfl, rfl⟩
  · show (if (5 : ℤ) = 0 then (qs, now)
        else if (5 : ℤ) = 5 then (([] : List Question), now + 10)
        else ([], now)) = ([], now + 10)
    norm_num
  · intro h0 h5
    show (if rc = 0 then (qs, now)
        else if rc = 5 then (([] : List Question), now + 10)
        else ([], now)) = ([], now)
    rw [if_neg h0, if_neg h5]

theorem fetch_trivia_failure_and_backoff_witness :
    fetch_trivia_from_api (.payload 0 []) 0 7 = ([], 0)
    ∧ fetch_trivia_from_api (.payload 5 []) 0 7 = ([], 0 + 10)
    ∧ ((3 : ℤ) ≠ 0 → (3 : ℤ) ≠ 5 →
        fetch_trivia_from_api (.payload 3 []) 0 7 = ([], 0))
    ∧ fetch_trivia_from_api .malformed 0 7 = ([], 0)
    ∧ fetch_trivia_from_api .httpError 0 7 = ([], 0 + 10)
    ∧ fetch_trivia_from_api .transportError 0 7 = ([], 7) :=
  fetch_trivia_failure_and_backoff [] 3 0 7

/-! ### Claim theorems: the refill merge step -/

/-- C7 counterexample: on a fetch failure (empty result) the merge step
does NOT always leave the pool untouched: a 1-question pool (smaller
than the tier's fallback bank) gains the 40 bank questions whose text it
does not contain, ending at 41 questions. -/
theorem prefetchMerge_failure_touches_pool :
    prefetchMerge [⟨"Is this a brand-new question?", "Yes", ["No"], none⟩] []
        FALLBACK_EASY
      ≠ [⟨"Is this a brand-new question?", "Yes", ["No"], none⟩]
    ∧ (prefetchMerge [⟨"Is this a brand-new question?", "Yes", ["No"], none⟩] []
        FALLBACK_EASY).length = 41 := by
  refine ⟨by decide, by decide⟩

/-- C7 (amended): on a successful (non-empty) fetch the merge keeps the
pool as a prefix, appends exactly the fetched questions whose text is
not already present, in fetch order, and a fetched question lands in the
appended part iff its text is new; on a fetch failure the pool is left
untouched only when it is at least as large as the tier's fallback bank,
otherwise the bank questions with new text are appended; the dedup
scenario (5 seeded questions merged with 3 fetched of which 2 match
existing text) ends at 6 questions, not 8. -/
theorem prefetchMerge_dedup_spec (pool fetched bank : List Question) :
    (fetched ≠ [] →
        (prefetchMerge pool fetched bank).take pool.length = pool
        ∧ (prefetchMerge pool fetched bank).drop pool.length
            = fetched.filter (fun q => q.question ∉ pool.map Question.question)
        ∧ ∀ q ∈ fetched,
            (q ∈ (prefetchMerge pool fetched bank).drop pool.length
              ↔ q.question ∉ pool.map Question.question))
    ∧ (fetched = [] → bank.length ≤ pool.length →
        prefetchMerge pool fetched bank = pool)
    ∧ (fetched = [] → pool.length < bank.length →
        prefetchMerge pool fetched bank
          = pool ++ bank.filter (fun q => q.question ∉ pool.map Question.question))
    ∧ (prefetchMerge (FALLBACK_EASY.take 5)
        [⟨"What planet is known as the Red Planet?", "Mars",
            ["Venus", "Jupiter", "Saturn"], none⟩,
          ⟨"How many continents are there on Earth?", "7", ["5", "6", "8"], none⟩,
          ⟨"What is 2+2?", "4", ["3", "5", "22"], none⟩]
        FALLBACK_EASY).length = 6 := by
  refine ⟨?_, ?_, ?_, by decide⟩
  · intro hf
    unfold prefetchMerge
    rw [if_pos hf]
    refine ⟨List.take_left _ _, List.drop_left _ _, ?_⟩
    intro q hq
    rw [List.drop_left]
    simp [List.mem_filter, hq]
  · intro hf hlen
    unfold prefetchMerge
    rw [if_neg (fun h => h hf), if_neg (by omega)]
  · intro hf hlt
    unfold prefetchMerge
    rw [if_neg (fun h => h hf), if_pos hlt]

theorem prefetchMerge_dedup_spec_witness :
    (([⟨"X?", "x", [], none⟩] : List Question) ≠ [] →
        (prefetchMerge [] [⟨"X?", "x", [], none⟩] []).take ([] : List Question).length = []
        ∧ (prefetchMerge [] [⟨"X?", "x", [], none⟩] []).drop ([] : List Question).length
            = [⟨"X?", "x", [], none⟩].filter
                (fun q => q.question ∉ ([] : List Question).map Question.question)
        ∧ ∀ q ∈ [(⟨"X?", "x", [], none⟩ : Question)],
            (q ∈ (prefetchMerge [] [⟨"X?", "x", [], none⟩] []).drop
                ([] : List Question).length
              ↔ q.question ∉ ([] : List Question).map Question.question))
    ∧ (([⟨"X?", "x", [], none⟩] : List Question) = [] →
        ([] : List Question).length ≤ ([] : List Question).length →
        prefetchMerge [] [⟨"X?", "x", [], none⟩] [] = [])
    ∧ (([⟨"X?", "x", [], none⟩] : List Question) = [] →
        ([] : List Question).length < ([] : List Question).length →
        prefetchMerge [] [⟨"X?", "x", [], none⟩] []
          = [] ++ List.filter
              (fun q => q.question ∉ ([] : List Question).map Question.question) [])
    ∧ (prefetchMerge (FALLBACK_EASY.take 5)
        [⟨"What planet is known as the Red Planet?", "Mars",
            ["Venus", "Jupiter", "Saturn"], none⟩,
          ⟨"How many continents are there on Earth?", "7", ["5", "6", "8"], none⟩,
          ⟨"What is 2+2?", "4", ["3", "5", "22"], none⟩]
        FALLBACK_EASY).length = 6 :=
  prefetchMerge_dedup_spec [] [⟨"X?", "x", [], none⟩] []

/-! ### Claim theorems: LeaderboardCache -/

/-- C8 counterexample: two stored entries with equal scores survive a
refresh (uniqueness is per username, not per score), so the snapshot
read by the leaderboard endpoint is NOT strictly descending by score. -/
theorem leaderboard_ties_not_strict :
    ¬ List.Pairwise (fun a b : LBEntry => b.score < a.score)
        (leaderboard_top
          (refresh_leaderboard
            [⟨"alice", "a", 5, 0, 1, 0, 0, 0⟩, ⟨"bob", "b", 5, 0, 1, 0, 0, 0⟩])
          [⟨"alice", "a", 5, 0, 1, 0, 0, 0⟩, ⟨"bob", "b", 5, 0, 1, 0, 0, 0⟩]) := by
  have hs : List.Pairwise
      (fun a b : LBEntry => decide (b.score ≤ a.score) = true)
      [⟨"alice", "a", 5, 0, 1, 0, 0, 0⟩, ⟨"bob", "b", 5, 0, 1, 0, 0, 0⟩] := by
    decide
  have hr : refresh_leaderboard
      [⟨"alice", "a", 5, 0, 1, 0, 0, 0⟩, ⟨"bob", "b", 5, 0, 1, 0, 0, 0⟩]
      = [⟨"alice", "a", 5, 0, 1, 0, 0, 0⟩, ⟨"bob", "b", 5, 0, 1, 0, 0, 0⟩] := by
    unfold refresh_leaderboard
    rw [List.mergeSort_of_sorted hs]
    rfl
  rw [hr]
  intro hp
  have htop : leaderboard_top
      [(⟨"alice", "a", 5, 0, 1, 0, 0, 0⟩ : LBEntry), ⟨"bob", "b", 5, 0, 1, 0, 0, 0⟩]
      [⟨"alice", "a", 5, 0, 1, 0, 0, 0⟩, ⟨"bob", "b", 5, 0, 1, 0, 0, 0⟩]
      = [⟨"alice", "a", 5, 0, 1, 0, 0, 0⟩, ⟨"bob", "b", 5, 0, 1, 0, 0, 0⟩] := by
    unfold leaderboard_top
    rw [if_neg (by simp)]
    rfl
  rw [htop] at hp
  obtain ⟨h1, h2⟩ := List.pairwise_cons.mp hp
  have h5 := h1 _ (List.mem_cons_self _ _)
  simp at h5

/-- C8 (amended): a refresh reads the stored leaderboard, sorts it by
score in non-increasing order (stable, so strictly descending whenever
scores are distinct) and truncates to at most 50 entries; the
leaderboard read path right after a refresh returns at most 20 entries
sorted by score in non-increasing order. -/
theorem leaderboard_refresh_sorted_truncated (stored : List LBEntry) :
    (refresh_leaderboard stored).length ≤ 50
    ∧ List.Pairwise (fun a b : LBEntry => b.score ≤ a.score)
        (refresh_leaderboard stored)
    ∧ List.Pairwise (fun a b : LBEntry => b.score ≤ a.score)
        (leaderboard_top (refresh_leaderboard stored) stored)
    ∧ (leaderboard_top (refresh_leaderboard stored) stored).length ≤ 20 := by
  have hsorted : (stored.mergeSort (fun a b => decide (b.score ≤ a.score))).Pairwise
      (fun a b : LBEntry => decide (b.score ≤ a.score) = true) := by
    apply List.sorted_mergeSort
    · intro a b c h1 h2
      simp only [decide_eq_true_eq] at h1 h2 ⊢
      omega
    · intro a b
      simp only [Bool.or_eq_true, decide_eq_true_eq]
      omega
  have hsorted2 : (stored.mergeSort (fun a b => decide (b.score ≤ a.score))).Pairwise
      (fun a b : LBEntry => b.score ≤ a.score) := by
    refine hsorted.imp ?_
    intro a b h
    exact of_decide_eq_true h
  have hrs : List.Pairwise (fun a b : LBEntry => b.score ≤ a.score)
      (refresh_leaderboard stored) := by
    unfold refresh_leaderboard
    exact List.Pairwise.sublist (List.take_sublist _ _) hsorted2
  refine ⟨?_, hrs, ?_, ?_⟩
  · unfold refresh_leaderboard
    rw [List.length_take]
    exact Nat.min_le_left _ _
  · unfold leaderboard_top
    by_cases h : (refresh_leaderboard stored).take 20 = []
    · rw [if_pos h]
      have hnil : stored = [] := by
        have h1 : refresh_leaderboard stored = [] := by
          rcases List.take_eq_nil_iff.mp h with h20 | hc
          · exact absurd h20 (by omega)
          · exact hc
        have h2 : (stored.mergeSort (fun a b => decide (b.score ≤ a.score))).take 50
            = [] := h1
        rcases List.take_eq_nil_iff.mp h2 with h50 | hm
        · exact absurd h50 (by omega)
        · have h3 := congrArg List.length hm
          simp only [List.length_mergeSort, List.length_nil] at h3
          exact List.length_eq_zero.mp h3
      rw [hnil]
      exact List.Pairwise.nil
    · rw [if_neg h]
      exact List.Pairwise.sublist (List.take_sublist _ _) hrs
  · unfold leaderboard_top
    by_cases h : (refresh_leaderboard stored).take 20 = []
    · rw [if_pos h, List.length_take]
      exact Nat.min_le_left _ _
    · rw [if_neg h, List.length_take]
      exact Nat.min_le_left _ _

end RageBait
